import Mathlib

/-!
Verification development for the Bot_BTC trading bot.

The development shallowly embeds the decision core of the repository:

* `Strategy.analyze` (src/bot/strategy.py): indicator computation over a
  candle series and the buy/sell decision rules;
* `Trader.run_analysis` / `open_position` / `close_position`
  (src/bot/trader.py): the live position lifecycle;
* `Backtester` (src/bot/backtester.py): the replay loop, stop-loss /
  take-profit checks, trade simulation and the performance report.

Prices, indicator values and monetary amounts are modelled as rationals.
Pandas missing values (NaN) arising during indicator warmup are modelled
as `Option` (`none` = NaN); a comparison against a missing value is false,
matching Python float-NaN comparison semantics.
-/

namespace BotBTC

/-- Trading signal emitted by the strategy (Python `'buy'` / `'sell'`;
`None` is modelled as `Option.none` at use sites). -/
inductive Signal
  | buy
  | sell
deriving DecidableEq, Repr

/-- Trend classification (`'uptrend'` / `'downtrend'`). -/
inductive Trend
  | uptrend
  | downtrend
deriving DecidableEq, Repr

/-- Tags standing for the human-readable reason strings appended by
`Strategy.analyze`; the numeric interpolations of the Python strings are
dropped, the tag identifies which sub-condition passed or failed. -/
inductive Reason
  | uptrendOk          -- "✓ Uptrend"
  | rsiHealthy         -- "✓ RSI healthy"
  | macdBullishOk      -- "✓ MACD bullish cross"
  | volumeOk           -- "✓ Volume confirmed"
  | crossAboveOk       -- "✓ Price crossed above EMA50"
  | nearFastOk         -- "✓ Price near EMA20"
  | noEmaEntry         -- "✗ No EMA entry signal"
  | lowVolume          -- "✗ Low volume"
  | noMacdBullish      -- "✗ No MACD bullish cross"
  | rsiOutOfRange      -- "✗ RSI out of range"
  | downtrendBlock     -- "✗ Downtrend (price < EMA200)"
  | extremeOverbought  -- "⚠️ Extreme overbought"
  | macdBearish        -- "⚠️ MACD bearish crossover"
  | crossBelowExit     -- "⚠️ Price crossed below EMA50"
deriving DecidableEq, Repr

/-- One OHLCV candle row. Timestamps are abstract naturals. -/
structure Candle where
  timestamp : Nat
  openPrice : Rat
  high : Rat
  low : Rat
  close : Rat
  volume : Rat
deriving DecidableEq, Repr

/-- Strategy parameters, mirroring `config/settings.py`. -/
structure StrategyConfig where
  emaTrendP : Nat
  emaFastP : Nat
  emaSlowP : Nat
  volumePeriod : Nat
  volumeMultiplier : Rat
  rsiPeriod : Nat
  rsiMin : Rat
  rsiMax : Rat
  rsiExit : Rat
  macdFast : Nat
  macdSlow : Nat
  macdSignalP : Nat
deriving DecidableEq, Repr

/-- The configured defaults of `Config` in src/config/settings.py
(EMA 200/20/50, volume window 20 with multiplier 0.5, RSI 14 with
bounds 40/70 and exit 75, MACD 12/26/9). -/
def defaultConfig : StrategyConfig :=
  { emaTrendP := 200
    emaFastP := 20
    emaSlowP := 50
    volumePeriod := 20
    volumeMultiplier := 1/2
    rsiPeriod := 14
    rsiMin := 40
    rsiMax := 70
    rsiExit := 75
    macdFast := 12
    macdSlow := 26
    macdSignalP := 9 }

/-- Exponential moving average column, `series.ewm(span, adjust=False).mean()`:
seed is the first value, then `ema = alpha*x + (1-alpha)*ema_prev` with
`alpha = 2/(span+1)`. Length-preserving. -/
def emaCol (span : Nat) (xs : List Rat) : List Rat :=
  match xs with
  | [] => []
  | x :: rest =>
    let alpha : Rat := 2 / ((span : Rat) + 1)
    List.scanl (fun e v => alpha * v + (1 - alpha) * e) x rest

/-- MACD line: fast EMA minus slow EMA, pointwise. -/
def macdCol (fast slow : Nat) (xs : List Rat) : List Rat :=
  List.zipWith (fun a b => a - b) (emaCol fast xs) (emaCol slow xs)

/-- Rolling simple moving average with window `w`
(`rolling(window=w).mean()`): `none` (NaN) for the first `w-1` entries. -/
def rollMean (w : Nat) (xs : List Rat) : List (Option Rat) :=
  (List.range xs.length).map (fun t =>
    if t + 1 < w then none
    else some (((xs.take (t+1)).drop (t + 1 - w)).foldl (· + ·) 0 / (w : Rat)))

/-- Per-index gains for RSI: `delta.where(delta > 0, 0)`. The index-0 delta
is NaN and `NaN > 0` is false, so the pandas expression replaces it by 0. -/
def gainCol (xs : List Rat) : List Rat :=
  match xs with
  | [] => []
  | x :: rest =>
    0 :: List.zipWith (fun prev cur => if cur - prev > 0 then cur - prev else 0) (x :: rest) rest

/-- Per-index losses for RSI: `(-delta.where(delta < 0, 0))`; the index-0
NaN delta is likewise replaced by 0 before negation. -/
def lossCol (xs : List Rat) : List Rat :=
  match xs with
  | [] => []
  | x :: rest =>
    0 :: List.zipWith (fun prev cur => if cur - prev < 0 then -(cur - prev) else 0) (x :: rest) rest

/-- Combine a rolling average gain and loss into an RSI value with Python
float semantics: `avg_loss = 0` with positive `avg_gain` saturates at 100
(division by zero gives +inf), `0/0` is NaN (`none`). -/
def rsiOf (g l : Rat) : Option Rat :=
  if l = 0 then (if g = 0 then none else some 100)
  else some (100 - 100 / (1 + g / l))

/-- RSI column of `Strategy.calculate_rsi`: rolling `period`-mean of gains
and losses, then `100 - 100/(1+rs)`. -/
def rsiCol (period : Nat) (xs : List Rat) : List (Option Rat) :=
  List.zipWith (fun g l =>
      match g, l with
      | some g, some l => rsiOf g l
      | _, _ => none)
    (rollMean period (gainCol xs)) (rollMean period (lossCol xs))

/-- Last element of a rational column (`iloc[-1]`); the default is never
reached under the warmup guard of `analyze`. -/
def lastR (xs : List Rat) : Rat := xs.getLastD 0

/-- Second-to-last element of a rational column (`iloc[-2]`). -/
def prevR (xs : List Rat) : Rat := xs.dropLast.getLastD 0

/-- Last element of an optional (NaN-able) column. -/
def lastO (xs : List (Option Rat)) : Option Rat := xs.getLastD none

/-- The derived indicator columns that `Strategy.analyze` assigns onto the
frame it is given (`df['ema_trend'] = ...` etc.). -/
structure IndicatorCols where
  emaTrendC : List Rat
  emaFastC : List Rat
  emaSlowC : List Rat
  rsiC : List (Option Rat)
  macdC : List Rat
  macdSignalC : List Rat
  volumeAvgC : List (Option Rat)
deriving DecidableEq, Repr

/-- Candle frame: the raw candle rows plus, after `analyze` has run on it,
the derived indicator columns. A freshly fetched or freshly copied frame
has `derived = none`. -/
structure DataFrame where
  candles : List Candle
  derived : Option IndicatorCols
deriving DecidableEq, Repr

/-- All derived indicator columns computed by `Strategy.analyze`
(lines 90-97 of src/bot/strategy.py). -/
def indicatorCols (cfg : StrategyConfig) (candles : List Candle) : IndicatorCols :=
  let closes := candles.map Candle.close
  let vols := candles.map Candle.volume
  { emaTrendC := emaCol cfg.emaTrendP closes
    emaFastC := emaCol cfg.emaFastP closes
    emaSlowC := emaCol cfg.emaSlowP closes
    rsiC := rsiCol cfg.rsiPeriod closes
    macdC := macdCol cfg.macdFast cfg.macdSlow closes
    macdSignalC := emaCol cfg.macdSignalP (macdCol cfg.macdFast cfg.macdSlow closes)
    volumeAvgC := rollMean cfg.volumePeriod vols }

/-- The per-evaluation snapshot extracted from the last and second-to-last
rows of the frame (lines 99-116 of src/bot/strategy.py). -/
structure Snapshot where
  price : Rat
  prevPrice : Rat
  emaTrendV : Rat
  emaFastV : Rat
  emaSlowV : Rat
  prevEmaSlowV : Rat
  rsiV : Option Rat
  macdV : Rat
  macdSignalV : Rat
  prevMacdV : Rat
  prevMacdSignalV : Rat
  volume : Rat
  volumeAvgV : Option Rat
deriving DecidableEq, Repr

/-- Extract the snapshot of last/previous row values used by the decision
rules. -/
def dfSnapshot (candles : List Candle) (cols : IndicatorCols) : Snapshot :=
  let closes := candles.map Candle.close
  { price := lastR closes
    prevPrice := prevR closes
    emaTrendV := lastR cols.emaTrendC
    emaFastV := lastR cols.emaFastC
    emaSlowV := lastR cols.emaSlowC
    prevEmaSlowV := prevR cols.emaSlowC
    rsiV := lastO cols.rsiC
    macdV := lastR cols.macdC
    macdSignalV := lastR cols.macdSignalC
    prevMacdV := prevR cols.macdC
    prevMacdSignalV := prevR cols.macdSignalC
    volume := lastR (candles.map Candle.volume)
    volumeAvgV := lastO cols.volumeAvgC }

/-- Volume confirmation boolean:
`volume > volume_avg * volume_multiplier` (false when the average is NaN). -/
def volumeConfirmedB (cfg : StrategyConfig) (s : Snapshot) : Bool :=
  match s.volumeAvgV with
  | some va => decide (s.volume > va * cfg.volumeMultiplier)
  | none => false

/-- RSI-in-entry-band boolean: `rsi_min <= rsi <= rsi_max`
(false when RSI is NaN, as in Python float comparison). -/
def rsiInRangeB (cfg : StrategyConfig) (s : Snapshot) : Bool :=
  match s.rsiV with
  | some r => decide (cfg.rsiMin ≤ r) && decide (r ≤ cfg.rsiMax)
  | none => false

/-- Extreme-overbought boolean: `rsi > rsi_exit` (false when RSI is NaN). -/
def rsiAboveExitB (cfg : StrategyConfig) (s : Snapshot) : Bool :=
  match s.rsiV with
  | some r => decide (r > cfg.rsiExit)
  | none => false

/-- MACD bullish crossover boolean. -/
def macdBullishB (s : Snapshot) : Bool :=
  decide (s.prevMacdV < s.prevMacdSignalV) && decide (s.macdV > s.macdSignalV)

/-- MACD bearish crossover boolean. -/
def macdBearishB (s : Snapshot) : Bool :=
  decide (s.prevMacdV > s.prevMacdSignalV) && decide (s.macdV < s.macdSignalV)

/-- Price crossed above the slow EMA boolean. -/
def crossAboveB (s : Snapshot) : Bool :=
  decide (s.prevPrice < s.prevEmaSlowV) && decide (s.price > s.emaSlowV)

/-- Price within 0.5% of the fast EMA boolean
(`abs(price - ema_fast) / price < 0.005`). -/
def nearFastB (s : Snapshot) : Bool :=
  decide (|s.price - s.emaFastV| / s.price < 5/1000)

/-- Price crossed below the slow EMA boolean
(`prev_price > prev_ema_slow and price < ema_slow`). -/
def crossBelowB (s : Snapshot) : Bool :=
  decide (s.prevPrice > s.prevEmaSlowV) && decide (s.price < s.emaSlowV)

/-- Uptrend boolean: `price > ema_trend`. -/
def trendUpB (s : Snapshot) : Bool :=
  decide (s.price > s.emaTrendV)

/-- The nested reason trail built by the buy-condition section of
`Strategy.analyze` (lines 135-164). -/
def buyReasons (up rsiIn bull vol cross bounce : Bool) : List Reason :=
  if up then
    Reason.uptrendOk ::
      (if rsiIn then
        Reason.rsiHealthy ::
          (if bull then
            Reason.macdBullishOk ::
              (if vol then
                Reason.volumeOk ::
                  (if cross || bounce then
                    [if cross then Reason.crossAboveOk else Reason.nearFastOk]
                  else [Reason.noEmaEntry])
              else [Reason.lowVolume])
          else [Reason.noMacdBullish])
      else [Reason.rsiOutOfRange])
  else [Reason.downtrendBlock]

/-- The decision section of `Strategy.analyze` (lines 118-180): buy when all
five entry conditions hold, then the sell-override chain replaces both the
signal and the reason trail. Returns the final signal and reason trail. -/
def evalSignal (cfg : StrategyConfig) (s : Snapshot) : Option Signal × List Reason :=
  let up := trendUpB s
  let rsiIn := rsiInRangeB cfg s
  let bull := macdBullishB s
  let vol := volumeConfirmedB cfg s
  let cross := crossAboveB s
  let bounce := nearFastB s
  let tentative : Option Signal :=
    if up && rsiIn && bull && vol && (cross || bounce) then some Signal.buy else none
  if rsiAboveExitB cfg s then (some Signal.sell, [Reason.extremeOverbought])
  else if macdBearishB s then (some Signal.sell, [Reason.macdBearish])
  else if crossBelowB s then (some Signal.sell, [Reason.crossBelowExit])
  else (tentative, buyReasons up rsiIn bull vol cross bounce)

/-- The full analysis dictionary returned on sufficient data
(lines 182-194 of src/bot/strategy.py). -/
structure FullResult where
  signal : Option Signal
  price : Rat
  rsiV : Option Rat
  macdV : Rat
  trend : Trend
  volumeConfirmed : Bool
  volOverAvg : Rat
  emaTrendV : Rat
  emaSlowV : Rat
  emaFastV : Rat
  reason : List Reason
deriving DecidableEq, Repr

/-- Result of one `Strategy.analyze` call: either the bare
`{'signal': None, 'reason': 'Insufficient data'}` dictionary, which carries
no indicator fields, or the full result. -/
inductive AnalysisResult
  | insufficientData
  | result (r : FullResult)
deriving DecidableEq, Repr

/-- Signal carried by an analysis result (`analysis.get('signal')`). -/
def AnalysisResult.signal : AnalysisResult → Option Signal
  | .insufficientData => none
  | .result r => r.signal

/-- Reason trail carried by an analysis result (empty for the
insufficient-data dictionary, whose reason is the fixed string). -/
def AnalysisResult.reasons : AnalysisResult → List Reason
  | .insufficientData => []
  | .result r => r.reason

/-- Build the full result dictionary from the snapshot. -/
def evalResult (cfg : StrategyConfig) (s : Snapshot) : FullResult :=
  let e := evalSignal cfg s
  { signal := e.1
    price := s.price
    rsiV := s.rsiV
    macdV := s.macdV
    trend := if s.price > s.emaTrendV then Trend.uptrend else Trend.downtrend
    volumeConfirmed := volumeConfirmedB cfg s
    volOverAvg := match s.volumeAvgV with
      | some va => if va > 0 then s.volume / va else 0
      | none => 0
    emaTrendV := s.emaTrendV
    emaSlowV := s.emaSlowV
    emaFastV := s.emaFastV
    reason := e.2 }

/-- Embedding of `Strategy.analyze`. The warmup guard
(`df.empty or len(df) < max(ema_trend, macd_slow)`) returns the bare
insufficient-data dictionary and leaves the frame untouched; otherwise the
derived indicator columns are assigned onto the frame that was passed in
(in-place mutation, modelled by returning the post-call frame) and the
decision rules run on the last two rows. -/
def analyze (cfg : StrategyConfig) (df : DataFrame) : DataFrame × AnalysisResult :=
  if df.candles = [] ∨ df.candles.length < max cfg.emaTrendP cfg.macdSlow then
    (df, AnalysisResult.insufficientData)
  else
    let cols := indicatorCols cfg df.candles
    let dfAfter : DataFrame := { candles := df.candles, derived := some cols }
    (dfAfter, AnalysisResult.result (evalResult cfg (dfSnapshot df.candles cols)))

/-! Backtester (src/bot/backtester.py). -/

/-- Exit reason recorded on a simulated trade. -/
inductive ExitReason
  | signalClose
  | stopLoss
  | takeProfit
deriving DecidableEq, Repr

/-- Stop-loss / take-profit percentages (`Config.STOP_LOSS_PCT`,
`Config.TAKE_PROFIT_PCT`). -/
structure RiskConfig where
  stopLossPct : Rat
  takeProfitPct : Rat
deriving DecidableEq, Repr

/-- Configured defaults: 2% stop loss, 5% take profit. -/
def defaultRisk : RiskConfig := { stopLossPct := 1/50, takeProfitPct := 1/20 }

/-- Open simulated position of the backtester. -/
structure BPosition where
  entryPrice : Rat
  entryTime : Nat
  amountBtc : Rat
  amountUsd : Rat
  sl : Rat
  tp : Rat
deriving DecidableEq, Repr

/-- Closed-trade record appended to `self.trades`. -/
structure BTrade where
  entryTime : Nat
  exitTime : Nat
  entryPrice : Rat
  exitPrice : Rat
  pnlUsd : Rat
  pnlPct : Rat
  exitReason : ExitReason
deriving DecidableEq, Repr

/-- Mutable state of a `Backtester` run: realized capital, the at-most-one
open position, the trade ledger, and the equity curve. -/
structure BState where
  capital : Rat
  position : Option BPosition
  trades : List BTrade
  equityCurve : List (Nat × Rat)
deriving DecidableEq, Repr

/-- Initial backtester state: 10000 USD, flat, no trades. -/
def initialBState : BState :=
  { capital := 10000, position := none, trades := [], equityCurve := [] }

/-- Embedding of `Backtester.simulate_trade`: a buy while flat opens a long
sized at 95% of capital with SL/TP at the configured percentages; a sell
while open closes at the given price with exit reason `signal`; anything
else is a no-op. -/
def simulateTrade (rc : RiskConfig) (sig : Signal) (price : Rat) (ts : Nat)
    (s : BState) : BState :=
  match sig, s.position with
  | Signal.buy, none =>
    let amountUsd := s.capital * (95/100)
    let amountBtc := amountUsd / price
    let newPos : BPosition :=
      { entryPrice := price
        entryTime := ts
        amountBtc := amountBtc
        amountUsd := amountUsd
        sl := price * (1 - rc.stopLossPct)
        tp := price * (1 + rc.takeProfitPct) }
    { s with position := some newPos }
  | Signal.sell, some p =>
    let pnlUsd := (price - p.entryPrice) * p.amountBtc
    { s with
        capital := s.capital + pnlUsd
        trades := s.trades ++
          [{ entryTime := p.entryTime
             exitTime := ts
             entryPrice := p.entryPrice
             exitPrice := price
             pnlUsd := pnlUsd
             pnlPct := (price - p.entryPrice) / p.entryPrice * 100
             exitReason := ExitReason.signalClose }]
        position := none }
  | _, _ => s

/-- Embedding of `Backtester.check_stop_loss_take_profit`: when a position
is open, a candle low at or below the stop exits at exactly the stop-loss
price; otherwise a candle high at or above the target exits at exactly the
take-profit price; the stop-loss branch is checked first. -/
def checkStopLossTakeProfit (row : Candle) (s : BState) : BState :=
  match s.position with
  | none => s
  | some p =>
    if row.low ≤ p.sl then
      let pnlUsd := (p.sl - p.entryPrice) * p.amountBtc
      { s with
          capital := s.capital + pnlUsd
          trades := s.trades ++
            [{ entryTime := p.entryTime
               exitTime := row.timestamp
               entryPrice := p.entryPrice
               exitPrice := p.sl
               pnlUsd := pnlUsd
               pnlPct := (p.sl - p.entryPrice) / p.entryPrice * 100
               exitReason := ExitReason.stopLoss }]
          position := none }
    else if row.high ≥ p.tp then
      let pnlUsd := (p.tp - p.entryPrice) * p.amountBtc
      { s with
          capital := s.capital + pnlUsd
          trades := s.trades ++
            [{ entryTime := p.entryTime
               exitTime := row.timestamp
               entryPrice := p.entryPrice
               exitPrice := p.tp
               pnlUsd := pnlUsd
               pnlPct := (p.tp - p.entryPrice) / p.entryPrice * 100
               exitReason := ExitReason.takeProfit }]
          position := none }
    else s

/-- One replay iteration body after the analysis signal is known
(lines 198-218 of src/bot/backtester.py): SL/TP check on the candle first,
then the signal is applied, then an equity sample (realized capital plus
unrealized PnL of any open position at the candle close) is appended. -/
def processCandle (rc : RiskConfig) (sig : Option Signal) (row : Candle)
    (s : BState) : BState :=
  let s1 := checkStopLossTakeProfit row s
  let s2 := match sig with
    | some g => simulateTrade rc g row.close row.timestamp s1
    | none => s1
  let equity := s2.capital +
    (match s2.position with
     | some p => (row.close - p.entryPrice) * p.amountBtc
     | none => 0)
  { s2 with equityCurve := s2.equityCurve ++ [(row.timestamp, equity)] }

/-- The analysis window passed to the strategy at replay index i:
`df.iloc[max(0, i-100):i+1].copy()` — a fresh frame (no derived columns)
holding at most the trailing 101 candles. Natural subtraction makes
`i - 100` the `max(0, i-100)` of the source. -/
def analysisWindow (df : List Candle) (i : Nat) : DataFrame :=
  { candles := (df.take (i+1)).drop (i - 100), derived := none }

/-- One full iteration of the replay loop at index i: analyze the window,
then process the candle `df.iloc[i]`. -/
def backtestStep (cfg : StrategyConfig) (rc : RiskConfig) (df : List Candle)
    (s : BState) (i : Nat) : BState :=
  let analysis := (analyze cfg (analysisWindow df i)).2
  match df[i]? with
  | none => s
  | some row => processCandle rc analysis.signal row s

/-- Embedding of the loop of `Backtester.run_backtest`:
`for i in range(200, len(df))`, starting from the initial state. -/
def runBacktest (cfg : StrategyConfig) (rc : RiskConfig) (df : List Candle) : BState :=
  (List.range' 200 (df.length - 200)).foldl (backtestStep cfg rc df) initialBState

/-- Winning trades of the report: `pnl_usd > 0`. -/
def winningTrades (ts : List BTrade) : List BTrade :=
  ts.filter (fun t => t.pnlUsd > 0)

/-- Losing trades of the report: `pnl_usd <= 0`. -/
def losingTrades (ts : List BTrade) : List BTrade :=
  ts.filter (fun t => t.pnlUsd ≤ 0)

/-- Total PnL of a list of trades. -/
def sumPnl (ts : List BTrade) : Rat :=
  ts.foldl (fun a t => a + t.pnlUsd) 0

/-- Profit factor value: a finite rational or the float +inf produced by
`float('inf')`. -/
inductive ProfitFactor
  | finite (val : Rat)
  | infinite
deriving DecidableEq, Repr

/-- Profit factor of `Backtester.generate_report` (line 244):
`abs(sum(wins)/sum(losses))` when there is at least one losing trade and
the losing sum is nonzero, `float('inf')` otherwise. -/
def profitFactor (ts : List BTrade) : ProfitFactor :=
  if losingTrades ts ≠ [] ∧ sumPnl (losingTrades ts) ≠ 0 then
    ProfitFactor.finite |sumPnl (winningTrades ts) / sumPnl (losingTrades ts)|
  else ProfitFactor.infinite

/-! Live trader (src/bot/trader.py). -/

/-- Open position held by the live `Trader` (memory mirror of the DB row). -/
structure TPosition where
  entryPrice : Rat
  amount : Rat
  sl : Rat
  tp : Rat
deriving DecidableEq, Repr

/-- Reason string passed to `Trader.close_position`
(default "Signal", or "Stop Loss" / "Take Profit"). -/
inductive CloseReason
  | signalExit
  | stopLossHit
  | takeProfitHit
deriving DecidableEq, Repr

/-- Result dictionary returned by a successful live transition. -/
inductive TAction
  | openedLong (price sl tp : Rat)
  | closedPos (price : Rat) (reason : CloseReason)
deriving DecidableEq, Repr

/-- Persistence calls issued by the trader during a transition
(`storage.save_trade` / `storage.close_trade`). -/
inductive DbWrite
  | saveTrade (entryPrice amount sl tp : Rat)
  | closeTrade (exitPrice : Rat)
deriving DecidableEq, Repr

/-- Outcome of a live-trader call: the position afterwards, the returned
action dictionary (`none` for a Python `None` return), and the persistence
writes performed. -/
abbrev TOutcome := Option TPosition × Option TAction × List DbWrite

/-- Embedding of `Trader.open_position`: fixed demo amount 0.001, SL/TP at
the configured percentages, the exchange order placed first; only a truthy
order result commits the position and the DB write, otherwise the call
returns None with nothing recorded. `orderOk` stands for
`exchange.create_order` returning a truthy result. -/
def openPosition (orderOk : Bool) (rc : RiskConfig) (pos : Option TPosition)
    (price : Rat) : TOutcome :=
  let amount : Rat := 1/1000
  let sl := price * (1 - rc.stopLossPct)
  let tp := price * (1 + rc.takeProfitPct)
  if orderOk then
    (some { entryPrice := price, amount := amount, sl := sl, tp := tp },
     some (TAction.openedLong price sl tp),
     [DbWrite.saveTrade price amount sl tp])
  else (pos, none, [])

/-- Embedding of `Trader.close_position`: a close while flat returns None
immediately; otherwise the sell order is placed and only a truthy result
commits the close and the DB update. -/
def closePosition (orderOk : Bool) (pos : Option TPosition) (price : Rat)
    (reason : CloseReason) : TOutcome :=
  match pos with
  | none => (none, none, [])
  | some p =>
    if orderOk then (none, some (TAction.closedPos price reason), [DbWrite.closeTrade price])
    else (some p, none, [])

/-- Embedding of the decision part of `Trader.run_analysis` (lines 36-55):
a buy signal while flat opens; else a sell signal while open closes with
reason Signal; else, with a position open, the stop-loss and then the
take-profit thresholds are compared against the analysis price. Note the
signal-driven branches return before the SL/TP comparison is reached. -/
def runAnalysis (orderOk : Bool) (rc : RiskConfig) (pos : Option TPosition)
    (sig : Option Signal) (price : Rat) : TOutcome :=
  if sig = some Signal.buy ∧ pos = none then
    openPosition orderOk rc pos price
  else if sig = some Signal.sell ∧ pos ≠ none then
    closePosition orderOk pos price CloseReason.signalExit
  else
    match pos with
    | some p =>
      if price ≤ p.sl then closePosition orderOk pos price CloseReason.stopLossHit
      else if price ≥ p.tp then closePosition orderOk pos price CloseReason.takeProfitHit
      else (pos, none, [])
    | none => (none, none, [])

/-! Helper lemmas shared by several theorems. -/

/-- Insufficient data: the warmup guard of `analyze` fires whenever the
series is shorter than the warmup threshold, returning the bare dictionary
and leaving the frame untouched. -/
lemma analyze_short (cfg : StrategyConfig) (df : DataFrame)
    (h : df.candles.length < max cfg.emaTrendP cfg.macdSlow) :
    analyze cfg df = (df, AnalysisResult.insufficientData) := by
  unfold analyze
  rw [if_pos (Or.inr h)]

/-- Sufficient data: `analyze` assigns the derived columns onto the frame
and evaluates the decision rules on the extracted snapshot. -/
lemma analyze_suff (cfg : StrategyConfig) (df : DataFrame)
    (h1 : df.candles ≠ []) (h2 : max cfg.emaTrendP cfg.macdSlow ≤ df.candles.length) :
    analyze cfg df =
      ({ candles := df.candles, derived := some (indicatorCols cfg df.candles) },
       AnalysisResult.result
         (evalResult cfg (dfSnapshot df.candles (indicatorCols cfg df.candles)))) := by
  unfold analyze
  rw [if_neg]
  rintro (hc | hl)
  · exact h1 hc
  · exact absurd h2 (Nat.not_le.mpr hl)

/-- Stop-loss close of the backtester: with a position open and the candle
low at or below the stop, the state closes at exactly the stop price. -/
lemma checkSLTP_stop (s : BState) (p : BPosition) (row : Candle)
    (hpos : s.position = some p) (hlow : row.low ≤ p.sl) :
    checkStopLossTakeProfit row s =
      { s with
          capital := s.capital + (p.sl - p.entryPrice) * p.amountBtc
          trades := s.trades ++
            [{ entryTime := p.entryTime
               exitTime := row.timestamp
               entryPrice := p.entryPrice
               exitPrice := p.sl
               pnlUsd := (p.sl - p.entryPrice) * p.amountBtc
               pnlPct := (p.sl - p.entryPrice) / p.entryPrice * 100
               exitReason := ExitReason.stopLoss }]
          position := none } := by
  simp [checkStopLossTakeProfit, hpos, hlow]

/-! Theorems settling the claims. -/

/-- C6. For every candle series shorter than
max(trend-EMA period, slow-MACD period) — the empty series included —
`analyze` returns the bare insufficient-data dictionary (signal none, no
indicator fields) and leaves the frame unchanged; being a total function,
it raises nothing. -/
theorem analyze_insufficient_below_warmup (cfg : StrategyConfig) (df : DataFrame)
    (h : df.candles.length < max cfg.emaTrendP cfg.macdSlow) :
    analyze cfg df = (df, AnalysisResult.insufficientData) ∧
    (analyze cfg df).2.signal = none := by
  refine ⟨analyze_short cfg df h, ?_⟩
  rw [analyze_short cfg df h]
  rfl

/-- C6 witness: the empty candle series at the configured periods. -/
theorem analyze_insufficient_below_warmup_witness :
    (({ candles := [], derived := none } : DataFrame)).candles.length <
      max defaultConfig.emaTrendP defaultConfig.macdSlow ∧
    analyze defaultConfig { candles := [], derived := none } =
      ({ candles := [], derived := none }, AnalysisResult.insufficientData) :=
  ⟨by decide,
   (analyze_insufficient_below_warmup defaultConfig { candles := [], derived := none }
     (by decide)).1⟩

/-- C7. A failed or null order result aborts the attempted transition
atomically: a failed open leaves the ledger flat with no action returned
and no DB write; a failed close leaves the position open unchanged with no
DB update; the failure surfaces as the None return value, distinct from
the success dictionary. -/
theorem failed_order_aborts_transition (rc : RiskConfig) (pos : Option TPosition)
    (p : TPosition) (price : Rat) (r : CloseReason) :
    openPosition false rc pos price = (pos, none, []) ∧
    closePosition false pos price r = (pos, none, []) ∧
    runAnalysis false rc none (some Signal.buy) price = (none, none, []) ∧
    runAnalysis false rc (some p) (some Signal.sell) price = (some p, none, []) := by
  refine ⟨?_, ?_, ?_, ?_⟩
  · simp [openPosition]
  · cases pos <;> simp [closePosition]
  · simp [runAnalysis, openPosition]
  · simp [runAnalysis, closePosition]

/-- C9 scenario trade: a single win of +100. -/
def c9win : BTrade :=
  { entryTime := 0, exitTime := 1, entryPrice := 100, exitPrice := 200,
    pnlUsd := 100, pnlPct := 100, exitReason := ExitReason.signalClose }

/-- C9 scenario trade: a single loss of -50. -/
def c9loss : BTrade :=
  { entryTime := 2, exitTime := 3, entryPrice := 100, exitPrice := 50,
    pnlUsd := -50, pnlPct := -50, exitReason := ExitReason.stopLoss }

/-- C9. The report's profit factor is the absolute ratio of summed winning
PnL to summed losing PnL, and saturates to +infinity when there are no
losing trades; one win of +100 with no losses gives +infinity, adding one
loss of -50 gives 2. -/
theorem profit_factor_correct (ts : List BTrade) :
    (losingTrades ts = [] → profitFactor ts = ProfitFactor.infinite) ∧
    (sumPnl (losingTrades ts) ≠ 0 →
      profitFactor ts =
        ProfitFactor.finite |sumPnl (winningTrades ts) / sumPnl (losingTrades ts)|) ∧
    profitFactor [c9win] = ProfitFactor.infinite ∧
    profitFactor [c9win, c9loss] = ProfitFactor.finite 2 := by
  refine ⟨?_, ?_,
    by norm_num [profitFactor, losingTrades, winningTrades, sumPnl, c9win, c9loss],
    by norm_num [profitFactor, losingTrades, winningTrades, sumPnl, c9win, c9loss]⟩
  · intro h
    simp [profitFactor, h]
  · intro h
    have hne : losingTrades ts ≠ [] := by
      intro he
      rw [he] at h
      exact h (by simp [sumPnl])
    simp [profitFactor, hne, h]

/-- C9 witness: the one-win ledger has no losing trades and the theorem
yields the +infinity profit factor there. -/
theorem profit_factor_correct_witness :
    losingTrades [c9win] = [] ∧ profitFactor [c9win] = ProfitFactor.infinite :=
  ⟨by decide, (profit_factor_correct [c9win]).1 (by decide)⟩

/-- C5. For every open position and every candle whose low is at or below
the stop, the backtester closes at exactly the stop-loss price with exit
reason stop_loss and pnl = (stop_loss - entry) * amount; the statement
holds for every candle high, so a high at or above the take-profit in the
same candle still yields the stop-loss exit. -/
theorem stop_loss_close_exact (s : BState) (p : BPosition) (row : Candle)
    (hpos : s.position = some p) (hlow : row.low ≤ p.sl) :
    checkStopLossTakeProfit row s =
      { s with
          capital := s.capital + (p.sl - p.entryPrice) * p.amountBtc
          trades := s.trades ++
            [{ entryTime := p.entryTime
               exitTime := row.timestamp
               entryPrice := p.entryPrice
               exitPrice := p.sl
               pnlUsd := (p.sl - p.entryPrice) * p.amountBtc
               pnlPct := (p.sl - p.entryPrice) / p.entryPrice * 100
               exitReason := ExitReason.stopLoss }]
          position := none } :=
  checkSLTP_stop s p row hpos hlow

/-- C5 witness position: entry 100, stop 95, target 110. -/
def c5pos : BPosition :=
  { entryPrice := 100, entryTime := 0, amountBtc := 1, amountUsd := 100,
    sl := 95, tp := 110 }

/-- C5 witness state holding the scenario position. -/
def c5state : BState :=
  { capital := 10000, position := some c5pos, trades := [], equityCurve := [] }

/-- C5 witness candle: low 94 breaches the stop while high 111 would also
reach the target. -/
def c5row : Candle :=
  { timestamp := 7, openPrice := 100, high := 111, low := 94, close := 108,
    volume := 1 }

/-- C5 witness: the scenario candle closes the 100/95/110 position at 95
with a negative pnl of -5 even though its high also reaches the target. -/
theorem stop_loss_close_exact_witness :
    c5row.low ≤ c5pos.sl ∧ c5pos.tp ≤ c5row.high ∧
    (checkStopLossTakeProfit c5row c5state).trades =
      [{ entryTime := 0, exitTime := 7, entryPrice := 100, exitPrice := 95,
         pnlUsd := -5, pnlPct := -5, exitReason := ExitReason.stopLoss }] ∧
    ((checkStopLossTakeProfit c5row c5state).trades.map BTrade.pnlUsd).all
      (fun x => x < 0) = true := by
  refine ⟨by decide, by decide, ?_, ?_⟩ <;>
    rw [stop_loss_close_exact c5state c5pos c5row rfl (by decide)] <;>
    norm_num [c5state, c5pos, c5row]

/-- Open-action discriminator for the live trader result. -/
def isOpenAction : Option TAction → Bool
  | some (TAction.openedLong _ _ _) => true
  | _ => false

/-- C8. At most one position: a buy signal while the live position is open
never opens a new one (the position is either kept or closed by the SL/TP
check); a live close while flat returns None and writes nothing; in replay
a buy while open and a sell while flat are exact no-ops on the state. -/
theorem single_position_ledger (ok : Bool) (rc : RiskConfig) (p : TPosition)
    (price : Rat) (ts : Nat) (r : CloseReason) (s1 s2 : BState) (q : BPosition)
    (h1 : s1.position = some q) (h2 : s2.position = none) :
    ((runAnalysis ok rc (some p) (some Signal.buy) price).1 = some p ∨
      (runAnalysis ok rc (some p) (some Signal.buy) price).1 = none) ∧
    isOpenAction (runAnalysis ok rc (some p) (some Signal.buy) price).2.1 = false ∧
    closePosition ok none price r = (none, none, []) ∧
    simulateTrade rc Signal.buy price ts s1 = s1 ∧
    simulateTrade rc Signal.sell price ts s2 = s2 := by
  refine ⟨?_, ?_, ?_, ?_, ?_⟩
  · cases ok <;> simp [runAnalysis, closePosition] <;> split_ifs <;> simp
  · cases ok <;> simp [runAnalysis, closePosition, isOpenAction] <;> split_ifs <;>
      simp [isOpenAction]
  · simp [closePosition]
  · simp [simulateTrade, h1]
  · simp [simulateTrade, h2]

/-- C8 witness position (live). -/
def c8tpos : TPosition := { entryPrice := 100, amount := 1/1000, sl := 98, tp := 105 }

/-- C8 witness position (replay). -/
def c8bpos : BPosition :=
  { entryPrice := 100, entryTime := 0, amountBtc := 1, amountUsd := 100,
    sl := 98, tp := 105 }

/-- C8 witness state with the replay position open. -/
def c8state : BState :=
  { capital := 10000, position := some c8bpos, trades := [], equityCurve := [] }

/-- C8 witness: concrete open state and the flat initial state. -/
theorem single_position_ledger_witness :
    c8state.position = some c8bpos ∧ initialBState.position = none ∧
    simulateTrade defaultRisk Signal.buy 100 5 c8state = c8state ∧
    closePosition true none 100 CloseReason.signalExit = (none, none, []) := by
  refine ⟨rfl, rfl, ?_, ?_⟩
  · exact (single_position_ledger true defaultRisk c8tpos 100 5 CloseReason.signalExit
      c8state initialBState c8bpos rfl rfl).2.2.2.1
  · exact (single_position_ledger true defaultRisk c8tpos 100 5 CloseReason.signalExit
      c8state initialBState c8bpos rfl rfl).2.2.1

/-- C2 counterexample position: entry 100, stop 95, target 110. -/
def c2pos : TPosition := { entryPrice := 100, amount := 1/1000, sl := 95, tp := 110 }

/-- C2 counterexample: on a live tick with the position open, price 94 at
or below the stop 95, and the evaluator emitting sell, the trader closes
with reason Signal — the signal-based exit runs before the stop-loss
check, contradicting the claimed ordering. -/
theorem live_signal_exit_despite_stop_counterexample :
    (94 : Rat) ≤ c2pos.sl ∧
    (runAnalysis true defaultRisk (some c2pos) (some Signal.sell) 94).2.1 =
      some (TAction.closedPos 94 CloseReason.signalExit) := by
  constructor
  · decide
  · decide

/-- C2 amended. In replay mode the SL/TP check does run before the
signal-based exit: whatever the evaluator returned, a candle whose low
breaches the stop records exactly the stop-loss trade. In live mode the
signal-based exit is checked first: with a position open and a sell
signal, the tick closes with reason Signal at every price, including
prices that breach the stop. -/
theorem sl_check_order_by_mode (rc : RiskConfig) (sig : Option Signal)
    (row : Candle) (s : BState) (q : BPosition) (p : TPosition) (price : Rat)
    (hpos : s.position = some q) (hlow : row.low ≤ q.sl) :
    (processCandle rc sig row s).trades = s.trades ++
      [{ entryTime := q.entryTime
         exitTime := row.timestamp
         entryPrice := q.entryPrice
         exitPrice := q.sl
         pnlUsd := (q.sl - q.entryPrice) * q.amountBtc
         pnlPct := (q.sl - q.entryPrice) / q.entryPrice * 100
         exitReason := ExitReason.stopLoss }] ∧
    (runAnalysis true rc (some p) (some Signal.sell) price).2.1 =
      some (TAction.closedPos price CloseReason.signalExit) := by
  constructor
  · have hstop := checkSLTP_stop s q row hpos hlow
    cases sig with
    | none => simp [processCandle, hstop]
    | some g => cases g <;> simp [processCandle, hstop, simulateTrade]
  · simp [runAnalysis, closePosition]

/-- C2 amended witness: the 100/95/110 replay position with a sell signal
and a candle low of 94 records the stop-loss trade, while the live trader
with the same numbers closes with reason Signal. -/
theorem sl_check_order_by_mode_witness :
    c5state.position = some c5pos ∧ c5row.low ≤ c5pos.sl ∧
    (processCandle defaultRisk (some Signal.sell) c5row c5state).trades =
      [{ entryTime := 0, exitTime := 7, entryPrice := 100, exitPrice := 95,
         pnlUsd := -5, pnlPct := -5, exitReason := ExitReason.stopLoss }] ∧
    (runAnalysis true defaultRisk (some c2pos) (some Signal.sell) 94).2.1 =
      some (TAction.closedPos 94 CloseReason.signalExit) := by
  refine ⟨rfl, by decide, ?_,
    (sl_check_order_by_mode defaultRisk (some Signal.sell) c5row c5state c5pos c2pos 94
      rfl (by decide)).2⟩
  rw [(sl_check_order_by_mode defaultRisk (some Signal.sell) c5row c5state c5pos c2pos 94
      rfl (by decide)).1]
  norm_num [c5state, c5pos, c5row]

/-- C10 counterexample candle: a constant 200-candle history. -/
def c10candle : Candle :=
  { timestamp := 0, openPrice := 100, high := 101, low := 99, close := 100,
    volume := 10 }

/-- C10 counterexample frame: 200 candles, no derived columns yet. -/
def c10df : DataFrame :=
  { candles := List.replicate 200 c10candle, derived := none }

set_option maxRecDepth 4000 in
/-- C10 counterexample: `analyze` is not pure with respect to its input —
on a 200-candle frame with no derived columns, the frame after the call
differs from the frame passed in, because the call assigned the derived
indicator columns onto it. -/
theorem analyze_mutates_input_counterexample :
    (analyze defaultConfig c10df).1 ≠ c10df := by
  have hguard : ¬(c10df.candles = [] ∨
      c10df.candles.length < max defaultConfig.emaTrendP defaultConfig.macdSlow) := by
    decide
  have key : (analyze defaultConfig c10df).1.derived =
      some (indicatorCols defaultConfig c10df.candles) := by
    unfold analyze
    rw [if_neg hguard]
  intro h
  rw [h] at key
  exact Option.noConfusion key

/-- C10 amended. `analyze` leaves the candle data of its input unchanged in
every case, but on sufficient data it writes the derived indicator columns
onto the frame it was given; derived columns do not accumulate across
replay iterations only because the backtester hands `analyze` a fresh copy
(`derived = none`) each candle. -/
theorem analyze_writes_columns_preserves_candles (cfg : StrategyConfig)
    (df : DataFrame) (dfl : List Candle) (i : Nat)
    (h1 : df.candles ≠ []) (h2 : max cfg.emaTrendP cfg.macdSlow ≤ df.candles.length) :
    (analyze cfg df).1.candles = df.candles ∧
    (analyze cfg df).1.derived = some (indicatorCols cfg df.candles) ∧
    (analysisWindow dfl i).derived = none := by
  rw [analyze_suff cfg df h1 h2]
  exact ⟨rfl, rfl, rfl⟩

set_option maxRecDepth 4000 in
/-- C10 amended witness: the 200-candle frame of the counterexample. -/
theorem analyze_writes_columns_preserves_candles_witness :
    c10df.candles ≠ [] ∧
    max defaultConfig.emaTrendP defaultConfig.macdSlow ≤ c10df.candles.length ∧
    (analyze defaultConfig c10df).1.candles = c10df.candles :=
  ⟨by decide, by decide,
   (analyze_writes_columns_preserves_candles defaultConfig c10df [] 0
     (by decide) (by decide)).1⟩

/-- The replay analysis window never exceeds 101 candles, hence never
reaches the default 200-candle warmup threshold. -/
lemma windowLen_lt (df : List Candle) (i : Nat) :
    (analysisWindow df i).candles.length < 200 := by
  show ((df.take (i+1)).drop (i - 100)).length < 200
  rw [List.length_drop, List.length_take]
  omega

/-- Every replay window is insufficient at the default configuration. -/
lemma analyze_window_short (df : List Candle) (i : Nat) :
    analyze defaultConfig (analysisWindow df i) =
      (analysisWindow df i, AnalysisResult.insufficientData) :=
  analyze_short defaultConfig (analysisWindow df i)
    (lt_of_lt_of_le (windowLen_lt df i) (by norm_num [defaultConfig]))

/-- A replay step at the default configuration leaves the position flat,
the trade ledger and the capital unchanged. -/
lemma backtestStep_inert (rc : RiskConfig) (df : List Candle) (s : BState)
    (i : Nat) (hpos : s.position = none) :
    (backtestStep defaultConfig rc df s i).position = none ∧
    (backtestStep defaultConfig rc df s i).trades = s.trades ∧
    (backtestStep defaultConfig rc df s i).capital = s.capital := by
  unfold backtestStep
  rw [analyze_window_short df i]
  cases hrow : df[i]? with
  | none => exact ⟨hpos, rfl, rfl⟩
  | some row =>
    simp [processCandle, AnalysisResult.signal, checkStopLossTakeProfit, hpos]

/-- Folding inert steps preserves flatness, the trade ledger and the
capital. -/
lemma foldl_inert (rc : RiskConfig) (df : List Candle) (l : List Nat)
    (s : BState) (hpos : s.position = none) :
    (l.foldl (backtestStep defaultConfig rc df) s).position = none ∧
    (l.foldl (backtestStep defaultConfig rc df) s).trades = s.trades ∧
    (l.foldl (backtestStep defaultConfig rc df) s).capital = s.capital := by
  induction l generalizing s with
  | nil => exact ⟨hpos, rfl, rfl⟩
  | cons a as ih =>
    have hstep := backtestStep_inert rc df s a hpos
    have hrest := ih (backtestStep defaultConfig rc df s a) hstep.1
    exact ⟨hrest.1, hrest.2.1.trans hstep.2.1, hrest.2.2.trans hstep.2.2⟩

/-- C1 (code bug). At the configured defaults the replay loop hands
`Strategy.analyze` a window of at most 101 candles
(`df.iloc[max(0, i-100):i+1]`) while the warmup guard requires 200, so
every replayed candle evaluates to the insufficient-data result: the
backtest executes no decision rule, opens no position, records no trade
and never changes the capital — it does not re-execute the live decision
rules candle-by-candle. -/
theorem backtest_window_never_sufficient (rc : RiskConfig) (df : List Candle) :
    (∀ i : Nat, analyze defaultConfig (analysisWindow df i) =
      (analysisWindow df i, AnalysisResult.insufficientData)) ∧
    (runBacktest defaultConfig rc df).trades = [] ∧
    (runBacktest defaultConfig rc df).position = none ∧
    (runBacktest defaultConfig rc df).capital = 10000 := by
  have h := foldl_inert rc df (List.range' 200 (df.length - 200)) initialBState rfl
  exact ⟨fun i => analyze_window_short df i, h.2.1, h.1, h.2.2⟩

/-- The five buy sub-conditions of the spec, as propositions on the
snapshot: uptrend, RSI within the entry band, MACD bullish cross, volume
above the scaled average, and an EMA entry (cross above the slow EMA or
price within 0.5% of the fast EMA). -/
def BuyConditions (cfg : StrategyConfig) (s : Snapshot) : Prop :=
  s.price > s.emaTrendV ∧
  (∃ r, s.rsiV = some r ∧ cfg.rsiMin ≤ r ∧ r ≤ cfg.rsiMax) ∧
  (s.prevMacdV < s.prevMacdSignalV ∧ s.macdV > s.macdSignalV) ∧
  (∃ va, s.volumeAvgV = some va ∧ s.volume > va * cfg.volumeMultiplier) ∧
  ((s.prevPrice < s.prevEmaSlowV ∧ s.price > s.emaSlowV) ∨
    |s.price - s.emaFastV| / s.price < 5/1000)

/-- The three sell overrides of the spec, as propositions on the snapshot:
RSI above the exit threshold, MACD bearish cross, or price crossing below
the slow EMA. -/
def SellOverrideConds (cfg : StrategyConfig) (s : Snapshot) : Prop :=
  (∃ r, s.rsiV = some r ∧ r > cfg.rsiExit) ∨
  (s.prevMacdV > s.prevMacdSignalV ∧ s.macdV < s.macdSignalV) ∨
  (s.prevPrice > s.prevEmaSlowV ∧ s.price < s.emaSlowV)

lemma rsiInRangeB_iff (cfg : StrategyConfig) (s : Snapshot) :
    rsiInRangeB cfg s = true ↔
      ∃ r, s.rsiV = some r ∧ cfg.rsiMin ≤ r ∧ r ≤ cfg.rsiMax := by
  cases h : s.rsiV <;> simp [rsiInRangeB, h]

lemma rsiAboveExitB_iff (cfg : StrategyConfig) (s : Snapshot) :
    rsiAboveExitB cfg s = true ↔ ∃ r, s.rsiV = some r ∧ r > cfg.rsiExit := by
  cases h : s.rsiV <;> simp [rsiAboveExitB, h]

lemma volumeConfirmedB_iff (cfg : StrategyConfig) (s : Snapshot) :
    volumeConfirmedB cfg s = true ↔
      ∃ va, s.volumeAvgV = some va ∧ s.volume > va * cfg.volumeMultiplier := by
  cases h : s.volumeAvgV <;> simp [volumeConfirmedB, h]

lemma macdBullishB_iff (s : Snapshot) :
    macdBullishB s = true ↔
      s.prevMacdV < s.prevMacdSignalV ∧ s.macdV > s.macdSignalV := by
  simp [macdBullishB]

lemma macdBearishB_iff (s : Snapshot) :
    macdBearishB s = true ↔
      s.prevMacdV > s.prevMacdSignalV ∧ s.macdV < s.macdSignalV := by
  simp [macdBearishB]

lemma crossAboveB_iff (s : Snapshot) :
    crossAboveB s = true ↔ s.prevPrice < s.prevEmaSlowV ∧ s.price > s.emaSlowV := by
  simp [crossAboveB]

lemma crossBelowB_iff (s : Snapshot) :
    crossBelowB s = true ↔ s.prevPrice > s.prevEmaSlowV ∧ s.price < s.emaSlowV := by
  simp [crossBelowB]

lemma nearFastB_iff (s : Snapshot) :
    nearFastB s = true ↔ |s.price - s.emaFastV| / s.price < 5/1000 := by
  simp [nearFastB]

lemma trendUpB_iff (s : Snapshot) :
    trendUpB s = true ↔ s.price > s.emaTrendV := by
  simp [trendUpB]

/-- The sell-override chain as one boolean. -/
lemma overrideB_iff (cfg : StrategyConfig) (s : Snapshot) :
    (rsiAboveExitB cfg s || macdBearishB s || crossBelowB s) = true ↔
      SellOverrideConds cfg s := by
  simp [SellOverrideConds, rsiAboveExitB_iff, macdBearishB_iff, crossBelowB_iff,
    or_assoc]

/-- The buy-eligibility chain as one boolean. -/
lemma buyB_iff (cfg : StrategyConfig) (s : Snapshot) :
    (trendUpB s && rsiInRangeB cfg s && macdBullishB s && volumeConfirmedB cfg s &&
      (crossAboveB s || nearFastB s)) = true ↔ BuyConditions cfg s := by
  simp [BuyConditions, trendUpB_iff, rsiInRangeB_iff, macdBullishB_iff,
    volumeConfirmedB_iff, crossAboveB_iff, nearFastB_iff, and_assoc]

/-- Closed form of the signal component of `evalSignal`. -/
lemma evalSignal_fst (cfg : StrategyConfig) (s : Snapshot) :
    (evalSignal cfg s).1 =
      (if rsiAboveExitB cfg s || macdBearishB s || crossBelowB s then
        some Signal.sell
      else if trendUpB s && rsiInRangeB cfg s && macdBullishB s &&
          volumeConfirmedB cfg s && (crossAboveB s || nearFastB s) then
        some Signal.buy
      else none) := by
  unfold evalSignal
  cases rsiAboveExitB cfg s <;> cases macdBearishB s <;> cases crossBelowB s <;> simp

/-- Closed form of the reason-trail component of `evalSignal`. -/
lemma evalSignal_snd (cfg : StrategyConfig) (s : Snapshot) :
    (evalSignal cfg s).2 =
      (if rsiAboveExitB cfg s then [Reason.extremeOverbought]
      else if macdBearishB s then [Reason.macdBearish]
      else if crossBelowB s then [Reason.crossBelowExit]
      else buyReasons (trendUpB s) (rsiInRangeB cfg s) (macdBullishB s)
        (volumeConfirmedB cfg s) (crossAboveB s) (nearFastB s)) := by
  unfold evalSignal
  cases rsiAboveExitB cfg s <;> cases macdBearishB s <;> cases crossBelowB s <;> simp

/-- Core characterisation: the evaluation yields buy exactly when all five
entry conditions hold and no sell override fires. -/
lemma evalSignal_buy_iff (cfg : StrategyConfig) (s : Snapshot) :
    (evalSignal cfg s).1 = some Signal.buy ↔
      BuyConditions cfg s ∧ ¬ SellOverrideConds cfg s := by
  rw [evalSignal_fst]
  by_cases hov : (rsiAboveExitB cfg s || macdBearishB s || crossBelowB s) = true
  · rw [if_pos hov]
    simp [(overrideB_iff cfg s).mp hov]
  · have hno : ¬ SellOverrideConds cfg s := fun h => hov ((overrideB_iff cfg s).mpr h)
    rw [if_neg hov]
    by_cases hb : (trendUpB s && rsiInRangeB cfg s && macdBullishB s &&
        volumeConfirmedB cfg s && (crossAboveB s || nearFastB s)) = true
    · rw [if_pos hb]
      simp [(buyB_iff cfg s).mp hb, hno]
    · rw [if_neg hb]
      constructor
      · intro h
        exact absurd h (by simp)
      · rintro ⟨hbc, -⟩
        exact absurd ((buyB_iff cfg s).mpr hbc) hb

/-- On a buy signal the reason trail records the five passed
sub-conditions in order, ending with whichever EMA entry fired. -/
lemma evalSignal_buy_reasons (cfg : StrategyConfig) (s : Snapshot)
    (h : (evalSignal cfg s).1 = some Signal.buy) :
    (evalSignal cfg s).2 =
      [Reason.uptrendOk, Reason.rsiHealthy, Reason.macdBullishOk, Reason.volumeOk,
       if crossAboveB s then Reason.crossAboveOk else Reason.nearFastOk] := by
  rw [evalSignal_fst] at h
  by_cases hov : (rsiAboveExitB cfg s || macdBearishB s || crossBelowB s) = true
  · rw [if_pos hov] at h
    exact absurd h (by simp)
  · rw [if_neg hov] at h
    by_cases hb : (trendUpB s && rsiInRangeB cfg s && macdBullishB s &&
        volumeConfirmedB cfg s && (crossAboveB s || nearFastB s)) = true
    · have hor : (rsiAboveExitB cfg s) = false ∧ (macdBearishB s) = false ∧
          (crossBelowB s) = false := by
        rcases Bool.or_eq_false_iff.mp (Bool.eq_false_iff.mpr hov) with ⟨h1, h3⟩
        rcases Bool.or_eq_false_iff.mp h1 with ⟨h1, h2⟩
        exact ⟨h1, h2, h3⟩
      have hands := hb
      simp only [Bool.and_eq_true] at hands
      obtain ⟨⟨⟨⟨hup, hri⟩, hbu⟩, hvo⟩, hcb⟩ := hands
      rw [evalSignal_snd, if_neg (by simp [hor.1]), if_neg (by simp [hor.2.1]),
        if_neg (by simp [hor.2.2])]
      simp [buyReasons, hup, hri, hbu, hvo, hcb]
    · rw [if_neg hb] at h
      exact absurd h (by simp)

/-- Core characterisation: the evaluation yields sell exactly when one of
the three overrides fires, regardless of buy eligibility. -/
lemma evalSignal_sell_iff (cfg : StrategyConfig) (s : Snapshot) :
    (evalSignal cfg s).1 = some Signal.sell ↔ SellOverrideConds cfg s := by
  rw [evalSignal_fst]
  by_cases hov : (rsiAboveExitB cfg s || macdBearishB s || crossBelowB s) = true
  · rw [if_pos hov]
    simp [(overrideB_iff cfg s).mp hov]
  · have hno : ¬ SellOverrideConds cfg s := fun h => hov ((overrideB_iff cfg s).mpr h)
    rw [if_neg hov]
    by_cases hb : (trendUpB s && rsiInRangeB cfg s && macdBullishB s &&
        volumeConfirmedB cfg s && (crossAboveB s || nearFastB s)) = true
    · rw [if_pos hb]
      simp [hno]
    · rw [if_neg hb]
      simp [hno]

/-- The signal of `analyze` on sufficient data is the evaluation on the
extracted snapshot. -/
lemma analyze_signal_eq (cfg : StrategyConfig) (df : DataFrame)
    (h1 : df.candles ≠ []) (h2 : max cfg.emaTrendP cfg.macdSlow ≤ df.candles.length) :
    (analyze cfg df).2.signal =
      (evalSignal cfg (dfSnapshot df.candles (indicatorCols cfg df.candles))).1 := by
  rw [analyze_suff cfg df h1 h2]
  rfl

/-- The reason trail of `analyze` on sufficient data is the evaluation's. -/
lemma analyze_reasons_eq (cfg : StrategyConfig) (df : DataFrame)
    (h1 : df.candles ≠ []) (h2 : max cfg.emaTrendP cfg.macdSlow ≤ df.candles.length) :
    (analyze cfg df).2.reasons =
      (evalSignal cfg (dfSnapshot df.candles (indicatorCols cfg df.candles))).2 := by
  rw [analyze_suff cfg df h1 h2]
  rfl

/-- C3. On every sufficient series, the analysis yields buy exactly when
the snapshot shows an uptrend, RSI inside [rsi_min, rsi_max], a MACD
bullish cross, volume above volume_avg times the multiplier (configured
default 0.5), and an EMA entry (cross above the slow EMA or price within
0.5% of the fast EMA) — provided no sell override fires; on a buy the
reason trail records the five passed sub-conditions. -/
theorem buy_signal_iff (cfg : StrategyConfig) (df : DataFrame)
    (h1 : df.candles ≠ []) (h2 : max cfg.emaTrendP cfg.macdSlow ≤ df.candles.length) :
    defaultConfig.volumeMultiplier = 1/2 ∧
    ((analyze cfg df).2.signal = some Signal.buy ↔
      BuyConditions cfg (dfSnapshot df.candles (indicatorCols cfg df.candles)) ∧
      ¬ SellOverrideConds cfg (dfSnapshot df.candles (indicatorCols cfg df.candles))) ∧
    ((analyze cfg df).2.signal = some Signal.buy →
      (analyze cfg df).2.reasons =
        [Reason.uptrendOk, Reason.rsiHealthy, Reason.macdBullishOk, Reason.volumeOk,
         if crossAboveB (dfSnapshot df.candles (indicatorCols cfg df.candles)) then
           Reason.crossAboveOk
         else Reason.nearFastOk]) := by
  refine ⟨rfl, ?_, ?_⟩
  · rw [analyze_signal_eq cfg df h1 h2]
    exact evalSignal_buy_iff cfg _
  · intro h
    rw [analyze_signal_eq cfg df h1 h2] at h
    rw [analyze_reasons_eq cfg df h1 h2]
    exact evalSignal_buy_reasons cfg _ h

/-- C4. On every sufficient series, the analysis yields sell exactly when
an override fires — overriding any tentative buy — and the overrides are
checked in priority order: RSI above the exit threshold first (reason
extreme overbought), else MACD bearish cross, else price crossing below
the slow EMA, each with its distinctive reason trail. -/
theorem sell_override_priority (cfg : StrategyConfig) (df : DataFrame)
    (h1 : df.candles ≠ []) (h2 : max cfg.emaTrendP cfg.macdSlow ≤ df.candles.length) :
    ((analyze cfg df).2.signal = some Signal.sell ↔
      SellOverrideConds cfg (dfSnapshot df.candles (indicatorCols cfg df.candles))) ∧
    ((∃ r, (dfSnapshot df.candles (indicatorCols cfg df.candles)).rsiV = some r ∧
        r > cfg.rsiExit) →
      (analyze cfg df).2.reasons = [Reason.extremeOverbought]) ∧
    (¬(∃ r, (dfSnapshot df.candles (indicatorCols cfg df.candles)).rsiV = some r ∧
        r > cfg.rsiExit) →
      ((dfSnapshot df.candles (indicatorCols cfg df.candles)).prevMacdV >
          (dfSnapshot df.candles (indicatorCols cfg df.candles)).prevMacdSignalV ∧
        (dfSnapshot df.candles (indicatorCols cfg df.candles)).macdV <
          (dfSnapshot df.candles (indicatorCols cfg df.candles)).macdSignalV) →
      (analyze cfg df).2.reasons = [Reason.macdBearish]) ∧
    (¬(∃ r, (dfSnapshot df.candles (indicatorCols cfg df.candles)).rsiV = some r ∧
        r > cfg.rsiExit) →
      ¬((dfSnapshot df.candles (indicatorCols cfg df.candles)).prevMacdV >
          (dfSnapshot df.candles (indicatorCols cfg df.candles)).prevMacdSignalV ∧
        (dfSnapshot df.candles (indicatorCols cfg df.candles)).macdV <
          (dfSnapshot df.candles (indicatorCols cfg df.candles)).macdSignalV) →
      ((dfSnapshot df.candles (indicatorCols cfg df.candles)).prevPrice >
          (dfSnapshot df.candles (indicatorCols cfg df.candles)).prevEmaSlowV ∧
        (dfSnapshot df.candles (indicatorCols cfg df.candles)).price <
          (dfSnapshot df.candles (indicatorCols cfg df.candles)).emaSlowV) →
      (analyze cfg df).2.reasons = [Reason.crossBelowExit]) ∧
    (SellOverrideConds cfg (dfSnapshot df.candles (indicatorCols cfg df.candles)) →
      (analyze cfg df).2.signal = some Signal.sell) := by
  have hsig := analyze_signal_eq cfg df h1 h2
  have hrea := analyze_reasons_eq cfg df h1 h2
  refine ⟨?_, ?_, ?_, ?_, ?_⟩
  · rw [hsig]
    exact evalSignal_sell_iff cfg _
  · intro hx
    have he : rsiAboveExitB cfg _ = true := (rsiAboveExitB_iff cfg _).mpr hx
    rw [hrea, evalSignal_snd, if_pos he]
  · intro hx hbear
    have he : rsiAboveExitB cfg _ = false :=
      Bool.eq_false_iff.mpr (fun hh => hx ((rsiAboveExitB_iff cfg _).mp hh))
    have hbe : macdBearishB _ = true := (macdBearishB_iff _).mpr hbear
    rw [hrea, evalSignal_snd, if_neg (by simp [he]), if_pos hbe]
  · intro hx hbear hbelow
    have he : rsiAboveExitB cfg _ = false :=
      Bool.eq_false_iff.mpr (fun hh => hx ((rsiAboveExitB_iff cfg _).mp hh))
    have hbe : macdBearishB _ = false :=
      Bool.eq_false_iff.mpr (fun hh => hbear ((macdBearishB_iff _).mp hh))
    have hcb : crossBelowB _ = true := (crossBelowB_iff _).mpr hbelow
    rw [hrea, evalSignal_snd, if_neg (by simp [he]), if_neg (by simp [hbe]),
      if_pos hcb]
  · intro hx
    rw [hsig]
    exact (evalSignal_sell_iff cfg _).mpr hx

/-- C3 witness frame: 200 constant candles. -/
def c3df : DataFrame :=
  { candles := List.replicate 200
      { timestamp := 0, openPrice := 100, high := 101, low := 99, close := 100,
        volume := 10 }
    derived := none }

set_option maxRecDepth 4000 in
/-- C3 witness: a concrete sufficient series instantiating the buy
characterisation. -/
theorem buy_signal_iff_witness :
    c3df.candles ≠ [] ∧
    max defaultConfig.emaTrendP defaultConfig.macdSlow ≤ c3df.candles.length ∧
    ((analyze defaultConfig c3df).2.signal = some Signal.buy ↔
      BuyConditions defaultConfig
        (dfSnapshot c3df.candles (indicatorCols defaultConfig c3df.candles)) ∧
      ¬ SellOverrideConds defaultConfig
        (dfSnapshot c3df.candles (indicatorCols defaultConfig c3df.candles))) :=
  ⟨by decide, by decide,
   (buy_signal_iff defaultConfig c3df (by decide) (by decide)).2.1⟩

/-- C4 witness frame: 200 constant candles. -/
def c4df : DataFrame :=
  { candles := List.replicate 200
      { timestamp := 0, openPrice := 50, high := 51, low := 49, close := 50,
        volume := 5 }
    derived := none }

set_option maxRecDepth 4000 in
/-- C4 witness: a concrete sufficient series instantiating the sell
override characterisation. -/
theorem sell_override_priority_witness :
    c4df.candles ≠ [] ∧
    max defaultConfig.emaTrendP defaultConfig.macdSlow ≤ c4df.candles.length ∧
    ((analyze defaultConfig c4df).2.signal = some Signal.sell ↔
      SellOverrideConds defaultConfig
        (dfSnapshot c4df.candles (indicatorCols defaultConfig c4df.candles))) :=
  ⟨by decide, by decide,
   (sell_override_priority defaultConfig c4df (by decide) (by decide)).1⟩

end BotBTC
